import Mathlib

/-!
# kubicorn: DigitalOcean droplet reconciliation and kubeconfig retrieval

A shallow embedding of

* `cloud/digitalocean/resources/droplet.go` (`Droplet.Actual`, `Droplet.Expected`,
  `Droplet.Apply`, `Droplet.Render`), and
* `cutil/kubeconfig/kubeconfig.go` (`RetryGetConfig`).

Conventions of the embedding.

* A Go `(value, error)` result is an `Except String _`; the string is the error message.
* A run-time panic caused by dereferencing the nil `ServerPool` pointer of the receiver is the
  outer `none` of an `Option` result.
* The cloud provider is an oracle: `Provider.ListByTag n tag` is the answer to the `n`-th
  `ListByTag` call (counted from `0`) when it is issued for `tag`.  Every call the code issues,
  and every `time.Sleep`, is recorded in a trace of `Event`s, in program order.
* Mutable fields of objects reached through pointers (`applyCluster`, the receiver's caches)
  are passed in and returned explicitly.
* Calls to `logger` have no effect on any value and are left out.
-/

/-! ## Go standard library -/

/-- Search of `sub` inside a list of characters, at every start position. -/
def containsChars (sub : List Char) : List Char → Bool
  | [] => sub.isPrefixOf []
  | c :: cs => sub.isPrefixOf (c :: cs) || containsChars sub cs

/-- Go `strings.Contains(s, substr)`. -/
def stringsContains (s substr : String) : Bool :=
  containsChars substr.data s.data

/-- Raw bytes (`[]byte`). -/
abbrev Bytes := List UInt8

/-- The list `block ++ ... ++ block ++ rest` with `n` copies of `block`. -/
def cycles {α : Type} (block : List α) : Nat → List α → List α
  | 0, rest => rest
  | n + 1, rest => block ++ cycles block n rest

/-! ## apis/cluster (the fields read or written by the embedded code) -/

namespace cluster

/-- Constant `cluster.ServerPoolType_Master`. -/
def ServerPoolType_Master : String := "master"

/-- Constant `cluster.ServerPoolType_Node`. -/
def ServerPoolType_Node : String := "node"

/-- Struct `cluster.ServerPool`; the field `Type` is named `PoolType` here. -/
structure ServerPool where
  Identifier : String
  Name : String
  PoolType : String
  Image : String
  Size : String
  MaxCount : Int
  BootstrapScript : String
deriving DecidableEq, Repr

/-- Struct `cluster.Ssh`. -/
structure SshDescriptor where
  User : String
  Identifier : String
  PublicKeyPath : String
  PublicKeyFingerprint : String
deriving DecidableEq, Repr

/-- Struct `cluster.KubernetesApi`. -/
structure KubernetesApiDescriptor where
  Endpoint : String
  Port : String
deriving DecidableEq, Repr

/-- A Go `map[string]string`, as an association list holding each key at most once. -/
abbrev ItemMap := List (String × String)

/-- The map read `m[k]` (with the presence flag). -/
def ItemMap.get (m : ItemMap) (k : String) : Option String :=
  m.lookup k

/-- The map write `m[k] = v`. -/
def ItemMap.set (m : ItemMap) (k v : String) : ItemMap :=
  (k, v) :: m.filter (fun e => e.1 != k)

/-- Struct `cluster.Cluster`.  `Values` stands for `Values.ItemMap`; the pointers `Ssh`,
`KubernetesApi`, `Values` and the entries of `ServerPools` are taken to be non-nil and the
map to be allocated. -/
structure Cluster where
  Name : String
  Location : String
  Ssh : SshDescriptor
  KubernetesApi : KubernetesApiDescriptor
  ServerPools : List ServerPool
  Values : ItemMap
deriving DecidableEq, Repr

end cluster

/-! ## github.com/digitalocean/godo (the parts the code touches) -/

namespace godo

/-- A `godo.Droplet` as the code observes it: `SizeSlug` is `Size.Slug`, `RegionName` is
`Region.Name`, `ImageSlug` is `Image.Slug`; `PrivateIPv4` and `PublicIPv4` are the results of
the accessor methods of the same name. -/
structure Droplet where
  ID : Int
  Name : String
  SizeSlug : String
  RegionName : String
  ImageSlug : String
  PrivateIPv4 : Except String String
  PublicIPv4 : Except String String

/-- A `godo.DropletCreateRequest` as filled in by `Droplet.Apply`. -/
structure DropletCreateRequest where
  Name : String
  Region : String
  Size : String
  ImageSlug : String
  Tags : List String
  PrivateNetworking : Bool
  SSHKeys : List (Int × String)
  UserData : Bytes

end godo

/-! ## cloud/digitalocean/resources -/

namespace resources

open cluster

/-- Constant `MasterIpAttempts`. -/
def MasterIpAttempts : Nat := 40

/-- Constant `MasterIpSleepSecondsPerAttempt`. -/
def MasterIpSleepSecondsPerAttempt : Nat := 3

/-- Struct `Droplet` with the embedded `Shared.Name` and `Shared.CloudID`.  The two cache
pointers of `Shared` are mutable state of the receiver and live in `Caches`. -/
structure Droplet where
  Name : String
  CloudID : String
  Region : String
  Size : String
  Image : String
  Count : Int
  SShFingerprint : String
  ServerPool : Option ServerPool
deriving DecidableEq, Repr

/-- The fields `Shared.CachedActual` and `Shared.CachedExpected` of the receiver. -/
structure Caches where
  CachedActual : Option Droplet
  CachedExpected : Option Droplet
deriving DecidableEq, Repr

/-- An interaction with the outside world, in the order the code performs it. -/
inductive Event where
  | ListByTag (tag : String)
  | Sleep (seconds : Nat)
  | Create (req : godo.DropletCreateRequest)

/-- Recogniser of a `Droplets.ListByTag` call. -/
def Event.isListByTag : Event → Bool
  | .ListByTag _ => true
  | _ => false

/-- Recogniser of a `Droplets.Create` call. -/
def Event.isCreate : Event → Bool
  | .Create _ => true
  | _ => false

/-- Recogniser of a `time.Sleep` call. -/
def Event.isSleep : Event → Bool
  | .Sleep _ => true
  | _ => false

/-- The provider behind `Sdk.Client.Droplets`: `ListByTag n tag` answers the `n`-th
`ListByTag` call, `Create req` answers a create call. -/
structure Provider where
  ListByTag : Nat → String → Except String (List godo.Droplet)
  Create : godo.DropletCreateRequest → Except String godo.Droplet

/-- The collaborators of `Droplet.Apply` that live outside the embedded files:
`compare.IsEqual`, `bootstrap.Asset`, `bootstrap.Inject` and `strconv.Atoi`.  They are
functions of their arguments; in particular `bootstrap.Inject` reads the map it is given and
does not write to it. -/
structure Externals where
  IsEqual : Droplet → Droplet → Except String Bool
  Asset : String → Except String Bytes
  Inject : Bytes → ItemMap → Except String Bytes
  Atoi : String → Except String Int

/-- `Droplet.Expected` (droplet.go, lines 69-88); it never fails and calls nothing. -/
def Expected (r : Droplet) (caches : Caches) (known : Cluster) : Option (Droplet × Caches) :=
  match caches.CachedExpected with
  | some cached => some (cached, caches)
  | none =>
    match r.ServerPool with
    | none => none
    | some pool =>
      let expected : Droplet :=
        { Name := r.Name, CloudID := pool.Identifier, Size := pool.Size,
          Region := known.Location, Image := pool.Image, Count := pool.MaxCount,
          SShFingerprint := known.Ssh.PublicKeyFingerprint, ServerPool := none }
      some (expected, { caches with CachedExpected := some expected })

/-- The inner loop of `Droplet.Apply` (lines 111-116): the name of the last pool of type
master, or the empty string. -/
def masterTagOf : List ServerPool → String → String
  | [], masterTag => masterTag
  | serverPool :: rest, masterTag =>
    if serverPool.PoolType = ServerPoolType_Master then masterTagOf rest serverPool.Name
    else masterTagOf rest masterTag

/-- How the master-IP loop of `Droplet.Apply` is left. -/
inductive LoopExit where
  | returned (err : String)
  | broke (masterIpPrivate masterIpPublic : String)
  | finished

/-- State after the master-IP loop: how it was left, the cluster, the calls made. -/
structure LoopOutcome where
  exit : LoopExit
  cluster : Cluster
  trace : List Event

/-- Puts earlier events in front of an outcome's trace. -/
def LoopOutcome.after (events : List Event) (o : LoopOutcome) : LoopOutcome :=
  { o with trace := events ++ o.trace }

/-- The loop `for i := 0; i < MasterIpAttempts; i++` of `Droplet.Apply` (lines 110-147),
entered with `remaining = MasterIpAttempts - i` iterations to go.  Every iteration that does
not return early issues exactly one `ListByTag` call, so the `i`-th iteration issues call `i`.
The tests `ld == 0` and `ld > 1` followed by `droplets[0]` are the match on the list. -/
def masterIpLoop (p : Provider) : Nat → Nat → Cluster → LoopOutcome
  | 0, _, applyCluster => ⟨.finished, applyCluster, []⟩
  | remaining + 1, i, applyCluster =>
    let masterTag := masterTagOf applyCluster.ServerPools ""
    if masterTag = "" then
      ⟨.returned "Unable to find master tag for master IP", applyCluster, []⟩
    else
      match p.ListByTag i masterTag with
      | .error _ =>
        (masterIpLoop p remaining (i + 1) applyCluster).after
          [.ListByTag masterTag, .Sleep MasterIpSleepSecondsPerAttempt]
      | .ok droplets =>
        let ld := droplets.length
        match droplets with
        | [] =>
          (masterIpLoop p remaining (i + 1) applyCluster).after
            [.ListByTag masterTag, .Sleep MasterIpSleepSecondsPerAttempt]
        | _ :: _ :: _ =>
          ⟨.returned ("Found [" ++ toString ld ++ "] droplets for tag [" ++ masterTag ++ "]"),
            applyCluster, [.ListByTag masterTag]⟩
        | [droplet] =>
          match droplet.PrivateIPv4 with
          | .error err =>
            ⟨.returned ("Unable to detect private IP: " ++ err), applyCluster,
              [.ListByTag masterTag]⟩
          | .ok masterIpPrivate =>
            match droplet.PublicIPv4 with
            | .error err =>
              ⟨.returned ("Unable to detect public IP: " ++ err), applyCluster,
                [.ListByTag masterTag]⟩
            | .ok masterIpPublic =>
              ⟨.broke masterIpPrivate masterIpPublic,
                { applyCluster with
                  Values := applyCluster.Values.set "INJECTEDMASTER"
                    (masterIpPrivate ++ ":" ++ applyCluster.KubernetesApi.Port) },
                [.ListByTag masterTag]⟩

/-- Result of `Droplet.Apply`: the returned pair, `applyCluster` afterwards, the calls made. -/
structure ApplyOutcome where
  result : Except String Droplet
  cluster : Cluster
  trace : List Event

/-- `Droplet.Apply` (droplet.go, lines 90-200). -/
def Apply (x : Externals) (p : Provider) (r actual expected : Droplet)
    (applyCluster : Cluster) : Option ApplyOutcome :=
  let applyResource := expected
  match x.IsEqual actual expected with
  | .error err => some ⟨.error err, applyCluster, []⟩
  | .ok true => some ⟨.ok applyResource, applyCluster, []⟩
  | .ok false =>
    match r.ServerPool with
    | none => none
    | some pool =>
      match x.Asset ("bootstrap/" ++ pool.BootstrapScript) with
      | .error err => some ⟨.error err, applyCluster, []⟩
      | .ok userData =>
        let discovery : LoopOutcome :=
          if pool.PoolType = ServerPoolType_Node then
            masterIpLoop p MasterIpAttempts 0 applyCluster
          else
            -- loop not entered: masterIpPrivate and masterIpPublic keep their initial ""
            ⟨.broke "" "", applyCluster, []⟩
        match discovery.exit with
        | .returned err => some ⟨.error err, discovery.cluster, discovery.trace⟩
        | .finished =>
          some ⟨.error "Unable to find Master IP after defined wait", discovery.cluster,
            discovery.trace⟩
        | .broke _ masterIpPublic =>
          let applyCluster := discovery.cluster
          let applyCluster :=
            { applyCluster with Values := applyCluster.Values.set "INJECTEDNAME" applyCluster.Name }
          let applyCluster :=
            { applyCluster with
              Values := applyCluster.Values.set "INJECTEDPORT" applyCluster.KubernetesApi.Port }
          match x.Inject userData applyCluster.Values with
          | .error err => some ⟨.error err, applyCluster, discovery.trace⟩
          | .ok userData =>
            match x.Atoi applyCluster.Ssh.Identifier with
            | .error err => some ⟨.error err, applyCluster, discovery.trace⟩
            | .ok sshId =>
              let createRequest : godo.DropletCreateRequest :=
                { Name := expected.Name, Region := expected.Region, Size := expected.Size,
                  ImageSlug := expected.Image, Tags := [expected.Name],
                  PrivateNetworking := true,
                  SSHKeys := [(sshId, expected.SShFingerprint)],
                  UserData := userData }
              match p.Create createRequest with
              | .error err =>
                some ⟨.error err, applyCluster, discovery.trace ++ [.Create createRequest]⟩
              | .ok droplet =>
                let id := toString droplet.ID
                let newResource : Droplet :=
                  { Name := droplet.Name, CloudID := id, Image := droplet.ImageSlug,
                    Size := droplet.SizeSlug, Region := droplet.RegionName,
                    Count := expected.Count, SShFingerprint := "", ServerPool := none }
                let applyCluster :=
                  { applyCluster with
                    KubernetesApi := { applyCluster.KubernetesApi with
                      Endpoint := masterIpPublic } }
                some ⟨.ok newResource, applyCluster, discovery.trace ++ [.Create createRequest]⟩

/-- The loop of `Droplet.Render` (lines 234-242): the updated pools and the flag `found`. -/
def renderLoop (renderResource : Droplet) : List ServerPool → Bool → List ServerPool × Bool
  | [], found => ([], found)
  | serverPool :: rest, found =>
    if serverPool.Name = renderResource.Name then
      let updated :=
        { serverPool with
          Image := renderResource.Image, Size := renderResource.Size,
          MaxCount := renderResource.Count }
      let (rest, found) := renderLoop renderResource rest true
      (updated :: rest, found)
    else
      let (rest, found) := renderLoop renderResource rest found
      (serverPool :: rest, found)

/-- What one pass of the loop body of `Droplet.Render` (lines 236-241) makes of a pool. -/
def rendered (renderResource : Droplet) (serverPool : ServerPool) : ServerPool :=
  if serverPool.Name = renderResource.Name then
    { serverPool with
      Image := renderResource.Image, Size := renderResource.Size,
      MaxCount := renderResource.Count }
  else
    serverPool

/-- `Droplet.Render` (droplet.go, lines 225-248); its error result is always nil. -/
def Render (r renderResource : Droplet) (renderCluster : Cluster) : Option Cluster :=
  match r.ServerPool with
  | none => none
  | some pool =>
    let serverPool : ServerPool :=
      { Identifier := "", Name := renderResource.Name, PoolType := pool.PoolType,
        Image := renderResource.Image, Size := renderResource.Size,
        MaxCount := renderResource.Count, BootstrapScript := "" }
    let (pools, found) := renderLoop renderResource renderCluster.ServerPools false
    let pools := if !found then pools ++ [serverPool] else pools
    some { renderCluster with ServerPools := pools, Location := renderResource.Region }

end resources

/-! ## cutil/kubeconfig -/

namespace kubeconfig

open cluster

/-- Constant `RetryAttempts`. -/
def RetryAttempts : Nat := 120

/-- Constant `RetrySleepSeconds`. -/
def RetrySleepSeconds : Nat := 2

/-- What `RetryGetConfig` does to the outside world. -/
inductive Step where
  | GetConfig
  | Sleep (seconds : Nat)
deriving DecidableEq, Repr

/-- Recogniser of a `GetConfig` invocation. -/
def Step.isGetConfig : Step → Bool
  | .GetConfig => true
  | _ => false

/-- Result of `RetryGetConfig`: the returned error (`none` is nil) and the steps taken. -/
structure RetryOutcome where
  err : Option String
  trace : List Step
deriving DecidableEq, Repr

/-- Puts earlier steps in front of an outcome's trace. -/
def RetryOutcome.after (steps : List Step) (o : RetryOutcome) : RetryOutcome :=
  { o with trace := steps ++ o.trace }

/-- The test of line 108 on an error message. -/
def retryable (msg : String) : Bool :=
  stringsContains msg "file does not exist" ||
    stringsContains msg "getsockopt: connection refused"

/-- The loop of `RetryGetConfig` (lines 105-117) with `remaining` iterations to go, the
next one being iteration `i`.  `GetConfig` connects to a remote host; `getConfig i existing`
is the error its `i`-th invocation returns (`none` is nil). -/
def retryLoop (getConfig : Nat → Cluster → Option String) (existing : Cluster) :
    Nat → Nat → RetryOutcome
  | 0, _ => ⟨some "Timedout writing kubeconfig", []⟩
  | remaining + 1, i =>
    match getConfig i existing with
    | some msg =>
      if retryable msg then
        (retryLoop getConfig existing remaining (i + 1)).after
          [.GetConfig, .Sleep RetrySleepSeconds]
      else
        ⟨some msg, [.GetConfig]⟩
    | none => ⟨none, [.GetConfig]⟩

/-- `RetryGetConfig` (kubeconfig.go, lines 104-119): the loop runs for
`i = 0, 1, ..., RetryAttempts`, as `i <= RetryAttempts` is its condition. -/
def RetryGetConfig (getConfig : Nat → Cluster → Option String) (existing : Cluster) :
    RetryOutcome :=
  retryLoop getConfig existing (RetryAttempts + 1) 0

end kubeconfig

/-! ## Test doubles used to run the code on concrete inputs -/

namespace kubeconfig

/-- A cluster whose master answers at 203.0.113.7. -/
def sampleCluster : cluster.Cluster :=
  { Name := "demo", Location := "sfo2",
    Ssh := { User := "root", Identifier := "1234", PublicKeyPath := "~/.ssh/id_rsa.pub",
             PublicKeyFingerprint := "aa:bb" },
    KubernetesApi := { Endpoint := "203.0.113.7", Port := "443" },
    ServerPools := [], Values := [] }

/-- A `GetConfig` that always fails because the remote file is not there yet. -/
def alwaysMissing : Nat → cluster.Cluster → Option String :=
  fun _ _ => some "file does not exist"

end kubeconfig

namespace resources

open cluster

/-- Stand-in for `strconv.Atoi` on unsigned decimal numerals. -/
def decimalAtoi (s : String) : Except String Int :=
  if s.data ≠ [] ∧ s.data.all Char.isDigit = true then
    .ok (Int.ofNat (s.data.foldl (fun n c => 10 * n + (c.toNat - 48)) 0))
  else
    .error ("strconv.Atoi: parsing \"" ++ s ++ "\": invalid syntax")

/-- Collaborators for the runs below: the comparison of section 4.3 of the design (name,
size, region, image, count, fingerprint), an asset store holding an empty script under
every name, an injector that leaves the script as it is. -/
def sampleExternals : Externals :=
  { IsEqual := fun a e =>
      .ok (a.Name == e.Name && a.Size == e.Size && a.Region == e.Region &&
        a.Image == e.Image && a.Count == e.Count && a.SShFingerprint == e.SShFingerprint)
    Asset := fun _ => .ok []
    Inject := fun userData _ => .ok userData
    Atoi := decimalAtoi }

/-- The master pool of the sample cluster. -/
def masterPool : ServerPool :=
  { Identifier := "", Name := "master-pool", PoolType := ServerPoolType_Master,
    Image := "ubuntu-16-04-x64", Size := "1gb", MaxCount := 1,
    BootstrapScript := "digitalocean_k8s_ubuntu_16.04_master.sh" }

/-- The node pool of the sample cluster. -/
def nodePool : ServerPool :=
  { Identifier := "", Name := "node-pool", PoolType := ServerPoolType_Node,
    Image := "ubuntu-16-04-x64", Size := "1gb", MaxCount := 1,
    BootstrapScript := "digitalocean_k8s_ubuntu_16.04_node.sh" }

/-- A cluster with one master pool and one node pool; one template value is already set. -/
def sampleCluster : Cluster :=
  { Name := "demo", Location := "sfo2",
    Ssh := { User := "root", Identifier := "1234", PublicKeyPath := "~/.ssh/id_rsa.pub",
             PublicKeyFingerprint := "aa:bb" },
    KubernetesApi := { Endpoint := "198.51.100.1", Port := "443" },
    ServerPools := [masterPool, nodePool],
    Values := [("CUSTOM", "42")] }

/-- The resource of the node pool, not yet created. -/
def nodeResource : Droplet :=
  { Name := "node-pool", CloudID := "", Region := "", Size := "", Image := "", Count := 0,
    SShFingerprint := "", ServerPool := some nodePool }

/-- The resource of the master pool, not yet created. -/
def masterResource : Droplet :=
  { Name := "master-pool", CloudID := "", Region := "", Size := "", Image := "", Count := 0,
    SShFingerprint := "", ServerPool := some masterPool }

/-- The actual state of a resource that does not exist yet. -/
def absentState (name : String) : Droplet :=
  { Name := name, CloudID := "", Region := "", Size := "", Image := "", Count := 1,
    SShFingerprint := "aa:bb", ServerPool := none }

/-- The expected state of a resource of the sample cluster. -/
def wantedState (name : String) : Droplet :=
  { Name := name, CloudID := "", Region := "sfo2", Size := "1gb",
    Image := "ubuntu-16-04-x64", Count := 1, SShFingerprint := "aa:bb", ServerPool := none }

/-- The master instance as the provider reports it. -/
def masterInstance : godo.Droplet :=
  { ID := 101, Name := "master-pool", SizeSlug := "1gb", RegionName := "sfo2",
    ImageSlug := "ubuntu-16-04-x64", PrivateIPv4 := .ok "10.0.0.5",
    PublicIPv4 := .ok "203.0.113.7" }

/-- The instance a create call for `req` yields, numbered 102. -/
def createdInstance (req : godo.DropletCreateRequest) : godo.Droplet :=
  { ID := 102, Name := req.Name, SizeSlug := req.Size, RegionName := req.Region,
    ImageSlug := req.ImageSlug, PrivateIPv4 := .ok "10.0.0.9",
    PublicIPv4 := .ok "203.0.113.9" }

/-- A provider on which the master shows up at the `k`-th `ListByTag` call (counted from
`0`); the call before it, if any, fails, the earlier ones find nothing. -/
def masterAfter (k : Nat) : Provider :=
  { ListByTag := fun i _ =>
      if i + 1 = k then .error "503 Service Unavailable"
      else if i < k then .ok []
      else .ok [masterInstance]
    Create := fun req => .ok (createdInstance req) }

/-- A provider on which the master never shows up. -/
def noMaster : Provider :=
  { ListByTag := fun _ _ => .ok []
    Create := fun req => .ok (createdInstance req) }

/-- A provider on which two instances carry every tag from the second call on. -/
def twoMasters : Provider :=
  { ListByTag := fun i _ => if i = 0 then .ok [] else .ok [masterInstance, masterInstance]
    Create := fun req => .ok (createdInstance req) }

/-- The outcome of applying the node pool once the master shows up at the third poll. -/
def nodeOutcome : ApplyOutcome :=
  { result := .ok
      { Name := "node-pool", CloudID := "102", Region := "sfo2", Size := "1gb",
        Image := "ubuntu-16-04-x64", Count := 1, SShFingerprint := "", ServerPool := none }
    cluster :=
      { sampleCluster with
        Values := [("INJECTEDPORT", "443"), ("INJECTEDNAME", "demo"),
          ("INJECTEDMASTER", "10.0.0.5:443"), ("CUSTOM", "42")]
        KubernetesApi := { Endpoint := "203.0.113.7", Port := "443" } }
    trace :=
      [Event.ListByTag "master-pool", Event.Sleep 3, Event.ListByTag "master-pool",
        Event.Sleep 3, Event.ListByTag "master-pool",
        Event.Create
          { Name := "node-pool", Region := "sfo2", Size := "1gb",
            ImageSlug := "ubuntu-16-04-x64", Tags := ["node-pool"], PrivateNetworking := true,
            SSHKeys := [(1234, "aa:bb")], UserData := [] }] }

end resources

/-! ## Properties of `RetryGetConfig` -/

namespace kubeconfig

open cluster

theorem countP_cycles_getConfig (k : Nat) (rest : List Step) :
    (cycles [Step.GetConfig, Step.Sleep RetrySleepSeconds] k rest).countP Step.isGetConfig
      = k + rest.countP Step.isGetConfig := by
  induction k with
  | zero => simp [cycles]
  | succ k ih =>
    simp only [cycles, List.countP_append, ih]
    simp [List.countP_cons, Step.isGetConfig]
    omega

/-- While the invocations `i, ..., i + k - 1` fail with retryable messages the loop sleeps
after each of them and goes on. -/
theorem retryLoop_retries (getConfig : Nat → Cluster → Option String) (existing : Cluster)
    (k m i : Nat)
    (h : ∀ j, j < k → ∃ msg, getConfig (i + j) existing = some msg ∧ retryable msg = true) :
    retryLoop getConfig existing (k + m) i =
      ⟨(retryLoop getConfig existing m (i + k)).err,
        cycles [Step.GetConfig, Step.Sleep RetrySleepSeconds] k
          (retryLoop getConfig existing m (i + k)).trace⟩ := by
  induction k generalizing i with
  | zero => simp [cycles]
  | succ k ih =>
    obtain ⟨msg, hmsg, hr⟩ := h 0 (Nat.succ_pos k)
    have hstep : ∀ j, j < k →
        ∃ msg, getConfig (i + 1 + j) existing = some msg ∧ retryable msg = true := by
      intro j hj
      have := h (j + 1) (Nat.succ_lt_succ hj)
      rwa [show i + (j + 1) = i + 1 + j by omega] at this
    have hk : k + 1 + m = (k + m) + 1 := by omega
    rw [hk, retryLoop]
    simp only [Nat.add_zero] at hmsg
    simp only [hmsg, hr, if_true, ih (i + 1) hstep, RetryOutcome.after, cycles]
    rw [show i + 1 + k = i + (k + 1) by omega]

end kubeconfig

namespace kubeconfig

open cluster

/-- C10 (the code at the failing input): when every `GetConfig` invocation fails with
"file does not exist", `RetryGetConfig` returns "Timedout writing kubeconfig" after
`RetryAttempts + 1 = 121` invocations of `GetConfig`, one more than `RetryAttempts`. -/
theorem RetryGetConfig_exhaustion_invokes_once_more :
    (RetryGetConfig alwaysMissing sampleCluster).err = some "Timedout writing kubeconfig" ∧
    (RetryGetConfig alwaysMissing sampleCluster).trace.countP Step.isGetConfig = 121 ∧
    RetryAttempts = 120 := by
  have hloop := retryLoop_retries alwaysMissing sampleCluster (RetryAttempts + 1) 0 0 (by
    intro j _
    exact ⟨"file does not exist", rfl, by decide⟩)
  simp only [Nat.add_zero] at hloop
  unfold RetryGetConfig
  rw [hloop]
  refine ⟨by simp [retryLoop], ?_, rfl⟩
  simp only [countP_cycles_getConfig]
  simp [retryLoop, RetryAttempts]

end kubeconfig

/-! ## Properties of the droplet resource -/

namespace resources

open cluster

theorem cycles_append {α : Type} (block : List α) (k : Nat) (rest more : List α) :
    cycles block k rest ++ more = cycles block k (rest ++ more) := by
  induction k with
  | zero => rfl
  | succ k ih => simp [cycles, ih]

theorem countP_cycles_listByTag (tag : String) (k : Nat) (rest : List Event) :
    (cycles [Event.ListByTag tag, Event.Sleep MasterIpSleepSecondsPerAttempt] k rest).countP
      Event.isListByTag = k + rest.countP Event.isListByTag := by
  induction k with
  | zero => simp [cycles]
  | succ k ih =>
    simp only [cycles, List.countP_append, ih]
    simp [List.countP_cons, Event.isListByTag]
    omega

theorem countP_cycles_create (tag : String) (k : Nat) (rest : List Event) :
    (cycles [Event.ListByTag tag, Event.Sleep MasterIpSleepSecondsPerAttempt] k rest).countP
      Event.isCreate = rest.countP Event.isCreate := by
  induction k with
  | zero => simp [cycles]
  | succ k ih =>
    simp only [cycles, List.countP_append, ih]
    simp [List.countP_cons, Event.isCreate]

theorem masterTagOf_no_master (pools : List ServerPool) (masterTag : String)
    (h : ∀ q ∈ pools, q.PoolType ≠ ServerPoolType_Master) :
    masterTagOf pools masterTag = masterTag := by
  induction pools with
  | nil => rfl
  | cons q rest ih =>
    have hq := h q (List.mem_cons_self q rest)
    simp only [masterTagOf, hq, if_false]
    exact ih (fun q₁ hq₁ => h q₁ (List.mem_cons_of_mem q hq₁))

/-- The master tag is the name of the last pool of type master. -/
theorem masterTagOf_last_master (before after : List ServerPool) (m : ServerPool)
    (masterTag : String) (hm : m.PoolType = ServerPoolType_Master)
    (hafter : ∀ q ∈ after, q.PoolType ≠ ServerPoolType_Master) :
    masterTagOf (before ++ m :: after) masterTag = m.Name := by
  induction before generalizing masterTag with
  | nil =>
    simp only [List.nil_append, masterTagOf, hm, if_true]
    exact masterTagOf_no_master after m.Name hafter
  | cons q rest ih =>
    simp only [List.cons_append, masterTagOf]
    split
    · exact ih q.Name
    · exact ih masterTag

/-- While the calls `i, ..., i + k - 1` fail or find nothing, the loop sleeps after each of
them and goes on. -/
theorem masterIpLoop_waits (p : Provider) (c : Cluster) (tag : String) (k m i : Nat)
    (htag : masterTagOf c.ServerPools "" = tag) (htag0 : tag ≠ "")
    (h : ∀ j, j < k →
      (∃ e, p.ListByTag (i + j) tag = .error e) ∨ p.ListByTag (i + j) tag = .ok []) :
    masterIpLoop p (k + m) i c =
      ⟨(masterIpLoop p m (i + k) c).exit, (masterIpLoop p m (i + k) c).cluster,
        cycles [Event.ListByTag tag, Event.Sleep MasterIpSleepSecondsPerAttempt] k
          (masterIpLoop p m (i + k) c).trace⟩ := by
  induction k generalizing i with
  | zero => simp [cycles]
  | succ k ih =>
    have h0 := h 0 (Nat.succ_pos k)
    simp only [Nat.add_zero] at h0
    have hstep : ∀ j, j < k →
        (∃ e, p.ListByTag (i + 1 + j) tag = .error e) ∨ p.ListByTag (i + 1 + j) tag = .ok [] := by
      intro j hj
      have := h (j + 1) (Nat.succ_lt_succ hj)
      rwa [show i + (j + 1) = i + 1 + j by omega] at this
    have hk : k + 1 + m = (k + m) + 1 := by omega
    rw [hk, masterIpLoop]
    simp only [htag, htag0, if_false]
    rcases h0 with ⟨e, he⟩ | he
    · simp only [he, ih (i + 1) hstep, LoopOutcome.after, cycles]
      rw [show i + 1 + k = i + (k + 1) by omega]
    · simp only [he, ih (i + 1) hstep, LoopOutcome.after, cycles]
      rw [show i + 1 + k = i + (k + 1) by omega]

end resources

namespace resources

open cluster

/-- C1: when `compare.IsEqual(actual, expected)` returns true without error,
`Droplet.Apply` returns exactly `expected` with a nil error, issues no provider call (the
trace is empty: no `ListByTag`, no `Create`, no sleep) and hands back the cluster as it
received it (same substitution map, same `KubernetesApi.Endpoint`, same server pools). -/
theorem Apply_noop_when_equal (x : Externals) (p : Provider) (r actual expected : Droplet)
    (applyCluster : Cluster) (hequal : x.IsEqual actual expected = .ok true) :
    Apply x p r actual expected applyCluster = some ⟨.ok expected, applyCluster, []⟩ := by
  simp [Apply, hequal]

/-- C1 on a concrete input: the node pool of the sample cluster when the actual state
already is the expected one. -/
theorem Apply_noop_when_equal_witness :
    sampleExternals.IsEqual (wantedState "node-pool") (wantedState "node-pool") = .ok true ∧
    Apply sampleExternals noMaster nodeResource (wantedState "node-pool")
      (wantedState "node-pool") sampleCluster
      = some ⟨.ok (wantedState "node-pool"), sampleCluster, []⟩ :=
  ⟨rfl, Apply_noop_when_equal sampleExternals noMaster nodeResource
    (wantedState "node-pool") (wantedState "node-pool") sampleCluster rfl⟩

/-- C4 (as stated, refuted): a provider that answers the second poll on the master tag
with two instances never returns exactly one instance, yet `Droplet.Apply` for the node
pool stops at that poll, after 2 polls instead of 40, with the error
"Found [2] droplets for tag [master-pool]" instead of
"Unable to find Master IP after defined wait". -/
theorem Apply_two_masters_stops_before_budget :
    nodeResource.ServerPool = some nodePool ∧
    nodePool.PoolType = ServerPoolType_Node ∧
    sampleExternals.IsEqual (absentState "node-pool") (wantedState "node-pool") = .ok false ∧
    sampleExternals.Asset ("bootstrap/" ++ nodePool.BootstrapScript) = .ok [] ∧
    masterTagOf sampleCluster.ServerPools "" = "master-pool" ∧
    (∀ i, ∀ g, twoMasters.ListByTag i "master-pool" ≠ .ok [g]) ∧
    Apply sampleExternals twoMasters nodeResource (absentState "node-pool")
      (wantedState "node-pool") sampleCluster
      = some ⟨.error "Found [2] droplets for tag [master-pool]", sampleCluster,
          [Event.ListByTag "master-pool", Event.Sleep 3, Event.ListByTag "master-pool"]⟩ := by
  refine ⟨rfl, rfl, rfl, rfl, by decide, ?_, rfl⟩
  intro i g
  by_cases hi : i = 0 <;> simp [twoMasters, hi]

/-- C4 (amended): master discovery exhaustion.  For a node-role pool with actual not equal
to expected, the bootstrap asset present and a non-empty master tag (the name of the last
master-role pool of the cluster): if every one of the first `MasterIpAttempts` polls on the
master tag fails or returns zero instances, `Droplet.Apply` polls exactly
`MasterIpAttempts = 40` times, sleeping after each poll, then returns the error
"Unable to find Master IP after defined wait"; it issues no `Create` call and leaves the
cluster as it was. -/
theorem Apply_master_discovery_exhausted (x : Externals) (p : Provider)
    (r actual expected : Droplet) (c : Cluster) (pool : ServerPool) (userData : Bytes)
    (tag : String)
    (hne : x.IsEqual actual expected = .ok false)
    (hpool : r.ServerPool = some pool)
    (hnode : pool.PoolType = ServerPoolType_Node)
    (hasset : x.Asset ("bootstrap/" ++ pool.BootstrapScript) = .ok userData)
    (htag : masterTagOf c.ServerPools "" = tag) (htag0 : tag ≠ "")
    (hnever : ∀ i, i < MasterIpAttempts →
      (∃ e, p.ListByTag i tag = .error e) ∨ p.ListByTag i tag = .ok []) :
    Apply x p r actual expected c
      = some ⟨.error "Unable to find Master IP after defined wait", c,
          cycles [Event.ListByTag tag, Event.Sleep MasterIpSleepSecondsPerAttempt]
            MasterIpAttempts []⟩ ∧
    (cycles [Event.ListByTag tag, Event.Sleep MasterIpSleepSecondsPerAttempt]
      MasterIpAttempts []).countP Event.isListByTag = 40 ∧
    (cycles [Event.ListByTag tag, Event.Sleep MasterIpSleepSecondsPerAttempt]
      MasterIpAttempts []).countP Event.isCreate = 0 := by
  have hloop := masterIpLoop_waits p c tag MasterIpAttempts 0 0 htag htag0 (by
    intro j hj
    simpa using hnever j hj)
  have hend : masterIpLoop p 0 MasterIpAttempts c = ⟨.finished, c, []⟩ := rfl
  simp only [Nat.add_zero, Nat.zero_add, hend] at hloop
  refine ⟨?_, ?_, ?_⟩
  · simp only [Apply, hne, hpool, hasset, hnode, if_true, hloop]
  · simp [countP_cycles_listByTag, MasterIpAttempts]
  · simp [countP_cycles_create]

/-- C4 (amended) on a concrete input: the node pool against a provider on which the master
never shows up. -/
theorem Apply_master_discovery_exhausted_witness :
    (∀ i, i < MasterIpAttempts → noMaster.ListByTag i "master-pool" = .ok []) ∧
    Apply sampleExternals noMaster nodeResource (absentState "node-pool")
      (wantedState "node-pool") sampleCluster
      = some ⟨.error "Unable to find Master IP after defined wait", sampleCluster,
          cycles [Event.ListByTag "master-pool", Event.Sleep MasterIpSleepSecondsPerAttempt]
            MasterIpAttempts []⟩ :=
  ⟨fun _ _ => rfl,
    (Apply_master_discovery_exhausted sampleExternals noMaster nodeResource
      (absentState "node-pool") (wantedState "node-pool") sampleCluster nodePool []
      "master-pool" rfl rfl rfl rfl (by decide) (by decide)
      (fun _ _ => Or.inr rfl)).1⟩

/-- C5: master discovery success.  For a node-role pool with actual not equal to expected,
the bootstrap asset present and a non-empty master tag: if for some `k < MasterIpAttempts`
the first `k` polls on the master tag fail or return zero instances and poll `k + 1`
returns exactly one instance whose private and public addresses resolve, then the loop is
left with these two addresses found, and the trace of `Droplet.Apply` is `k` rounds of
poll and sleep, the successful poll, and then no further poll: the provider is polled
exactly `k + 1` times. -/
theorem Apply_master_discovery_succeeds (x : Externals) (p : Provider)
    (r actual expected : Droplet) (c : Cluster) (pool : ServerPool) (userData : Bytes)
    (tag : String) (k : Nat) (g : godo.Droplet) (masterIpPrivate masterIpPublic : String)
    (hne : x.IsEqual actual expected = .ok false)
    (hpool : r.ServerPool = some pool)
    (hnode : pool.PoolType = ServerPoolType_Node)
    (hasset : x.Asset ("bootstrap/" ++ pool.BootstrapScript) = .ok userData)
    (htag : masterTagOf c.ServerPools "" = tag) (htag0 : tag ≠ "")
    (hk : k < MasterIpAttempts)
    (hwait : ∀ i, i < k →
      (∃ e, p.ListByTag i tag = .error e) ∨ p.ListByTag i tag = .ok [])
    (hone : p.ListByTag k tag = .ok [g])
    (hprivate : g.PrivateIPv4 = .ok masterIpPrivate)
    (hpublic : g.PublicIPv4 = .ok masterIpPublic) :
    masterIpLoop p MasterIpAttempts 0 c
      = ⟨.broke masterIpPrivate masterIpPublic,
          { c with
            Values := c.Values.set "INJECTEDMASTER"
              (masterIpPrivate ++ ":" ++ c.KubernetesApi.Port) },
          cycles [Event.ListByTag tag, Event.Sleep MasterIpSleepSecondsPerAttempt] k
            [Event.ListByTag tag]⟩ ∧
    ∃ o rest, Apply x p r actual expected c = some o ∧
      o.trace = cycles [Event.ListByTag tag, Event.Sleep MasterIpSleepSecondsPerAttempt] k
        (Event.ListByTag tag :: rest) ∧
      rest.countP Event.isListByTag = 0 ∧
      o.trace.countP Event.isListByTag = k + 1 := by
  obtain ⟨m, hm⟩ : ∃ m, MasterIpAttempts = k + (m + 1) := ⟨MasterIpAttempts - k - 1, by omega⟩
  have hloop := masterIpLoop_waits p c tag k (m + 1) 0 htag htag0 (by
    intro j hj
    simpa using hwait j hj)
  have hlast : masterIpLoop p (m + 1) k c
      = ⟨.broke masterIpPrivate masterIpPublic,
          { c with
            Values := c.Values.set "INJECTEDMASTER"
              (masterIpPrivate ++ ":" ++ c.KubernetesApi.Port) },
          [Event.ListByTag tag]⟩ := by
    simp only [masterIpLoop, htag, htag0, if_false, hone, hprivate, hpublic]
  simp only [Nat.zero_add, hlast] at hloop
  rw [← hm] at hloop
  refine ⟨hloop, ?_⟩
  simp only [Apply, hne, hpool, hasset, hnode, if_true, hloop]
  split
  · exact ⟨_, [], rfl, rfl, rfl, by simp [countP_cycles_listByTag, Event.isListByTag]⟩
  · split
    · exact ⟨_, [], rfl, rfl, rfl, by simp [countP_cycles_listByTag, Event.isListByTag]⟩
    · split
      · exact ⟨_, [Event.Create _], rfl, cycles_append _ _ _ _, rfl,
          by simp [cycles_append, countP_cycles_listByTag, Event.isListByTag]⟩
      · exact ⟨_, [Event.Create _], rfl, cycles_append _ _ _ _, rfl,
          by simp [cycles_append, countP_cycles_listByTag, Event.isListByTag]⟩

end resources

namespace resources

open cluster

/-- C5 on a concrete input: the first poll finds nothing, the second fails, the third
returns the master; the loop is left after 3 polls with 10.0.0.5 and 203.0.113.7. -/
theorem Apply_master_discovery_succeeds_witness :
    masterIpLoop (masterAfter 2) MasterIpAttempts 0 sampleCluster
      = ⟨.broke "10.0.0.5" "203.0.113.7",
          { sampleCluster with
            Values := sampleCluster.Values.set "INJECTEDMASTER"
              ("10.0.0.5" ++ ":" ++ sampleCluster.KubernetesApi.Port) },
          cycles [Event.ListByTag "master-pool", Event.Sleep MasterIpSleepSecondsPerAttempt] 2
            [Event.ListByTag "master-pool"]⟩ ∧
    ∃ o rest, Apply sampleExternals (masterAfter 2) nodeResource (absentState "node-pool")
        (wantedState "node-pool") sampleCluster = some o ∧
      o.trace = cycles [Event.ListByTag "master-pool",
        Event.Sleep MasterIpSleepSecondsPerAttempt] 2 (Event.ListByTag "master-pool" :: rest) ∧
      rest.countP Event.isListByTag = 0 ∧
      o.trace.countP Event.isListByTag = 2 + 1 :=
  Apply_master_discovery_succeeds sampleExternals (masterAfter 2) nodeResource
    (absentState "node-pool") (wantedState "node-pool") sampleCluster nodePool []
    "master-pool" 2 masterInstance "10.0.0.5" "203.0.113.7" rfl rfl rfl rfl (by decide)
    (by decide) (by decide)
    (by
      intro i hi
      interval_cases i
      · exact Or.inr rfl
      · exact Or.inl ⟨_, rfl⟩)
    rfl rfl rfl

/-- C6: ambiguous master.  For a node-role pool with actual not equal to expected, the
bootstrap asset present and a non-empty master tag: if the first `k` polls
(`k < MasterIpAttempts`) fail or return zero instances and the next poll returns two or
more instances, `Droplet.Apply` returns the error "Found [n] droplets for tag [tag]" at
that poll.  The trace ends with that poll (`k + 1` polls, no `Create`), and the cluster is
handed back as received, so no INJECTEDMASTER entry is written. -/
theorem Apply_ambiguous_master (x : Externals) (p : Provider)
    (r actual expected : Droplet) (c : Cluster) (pool : ServerPool) (userData : Bytes)
    (tag : String) (k : Nat) (g₁ g₂ : godo.Droplet) (more : List godo.Droplet)
    (hne : x.IsEqual actual expected = .ok false)
    (hpool : r.ServerPool = some pool)
    (hnode : pool.PoolType = ServerPoolType_Node)
    (hasset : x.Asset ("bootstrap/" ++ pool.BootstrapScript) = .ok userData)
    (htag : masterTagOf c.ServerPools "" = tag) (htag0 : tag ≠ "")
    (hk : k < MasterIpAttempts)
    (hwait : ∀ i, i < k →
      (∃ e, p.ListByTag i tag = .error e) ∨ p.ListByTag i tag = .ok [])
    (htwo : p.ListByTag k tag = .ok (g₁ :: g₂ :: more)) :
    Apply x p r actual expected c
      = some ⟨.error ("Found [" ++ toString (more.length + 2) ++ "] droplets for tag ["
            ++ tag ++ "]"), c,
          cycles [Event.ListByTag tag, Event.Sleep MasterIpSleepSecondsPerAttempt] k
            [Event.ListByTag tag]⟩ ∧
    (cycles [Event.ListByTag tag, Event.Sleep MasterIpSleepSecondsPerAttempt] k
      [Event.ListByTag tag]).countP Event.isListByTag = k + 1 ∧
    (cycles [Event.ListByTag tag, Event.Sleep MasterIpSleepSecondsPerAttempt] k
      [Event.ListByTag tag]).countP Event.isCreate = 0 := by
  obtain ⟨m, hm⟩ : ∃ m, MasterIpAttempts = k + (m + 1) := ⟨MasterIpAttempts - k - 1, by omega⟩
  have hloop := masterIpLoop_waits p c tag k (m + 1) 0 htag htag0 (by
    intro j hj
    simpa using hwait j hj)
  have hlast : masterIpLoop p (m + 1) k c
      = ⟨.returned ("Found [" ++ toString (more.length + 2) ++ "] droplets for tag ["
            ++ tag ++ "]"), c, [Event.ListByTag tag]⟩ := by
    simp only [masterIpLoop, htag, htag0, if_false, htwo, List.length_cons]
  simp only [Nat.zero_add, hlast] at hloop
  rw [← hm] at hloop
  refine ⟨?_, ?_, ?_⟩
  · simp only [Apply, hne, hpool, hasset, hnode, if_true, hloop]
  · simp [countP_cycles_listByTag, Event.isListByTag]
  · simp [countP_cycles_create, Event.isCreate]

/-- C6 on a concrete input: the first poll finds nothing, the second returns two
instances tagged master-pool. -/
theorem Apply_ambiguous_master_witness :
    twoMasters.ListByTag 1 "master-pool" = .ok [masterInstance, masterInstance] ∧
    Apply sampleExternals twoMasters nodeResource (absentState "node-pool")
      (wantedState "node-pool") sampleCluster
      = some ⟨.error ("Found [" ++ toString (([] : List godo.Droplet).length + 2)
            ++ "] droplets for tag [" ++ "master-pool" ++ "]"), sampleCluster,
          cycles [Event.ListByTag "master-pool", Event.Sleep MasterIpSleepSecondsPerAttempt] 1
            [Event.ListByTag "master-pool"]⟩ :=
  ⟨rfl,
    (Apply_ambiguous_master sampleExternals twoMasters nodeResource (absentState "node-pool")
      (wantedState "node-pool") sampleCluster nodePool [] "master-pool" 1 masterInstance
      masterInstance [] rfl rfl rfl rfl (by decide) (by decide) (by decide)
      (by
        intro i hi
        interval_cases i
        exact Or.inr rfl)
      rfl).1⟩

/-- C2 (the code at the failing input): `Droplet.Apply` for the master pool of the sample
cluster creates a droplet successfully (one `Create` call, nil error); the created
instance has the public address 203.0.113.9 and the cluster's endpoint was 198.51.100.1,
but afterwards `KubernetesApi.Endpoint` is the empty string: the value assigned at line
198 is `masterIpPublic`, which only the node branch ever sets. -/
theorem Apply_master_sets_empty_endpoint :
    ∃ o req g d,
      Apply sampleExternals noMaster masterResource (absentState "master-pool")
        (wantedState "master-pool") sampleCluster = some o ∧
      masterResource.ServerPool = some masterPool ∧
      masterPool.PoolType = ServerPoolType_Master ∧
      o.trace = [Event.Create req] ∧
      noMaster.Create req = .ok g ∧
      g.PublicIPv4 = .ok "203.0.113.9" ∧
      o.result = .ok d ∧
      sampleCluster.KubernetesApi.Endpoint = "198.51.100.1" ∧
      o.cluster.KubernetesApi.Endpoint = "" :=
  ⟨_, _, _, _, rfl, rfl, rfl, rfl, rfl, rfl, rfl, rfl, rfl⟩

end resources

namespace resources

open cluster

theorem ItemMap_get_set_same (m : ItemMap) (k v : String) :
    (m.set k v).get k = some v := by
  simp [ItemMap.get, ItemMap.set, List.lookup]

theorem ItemMap_get_set_other (m : ItemMap) (k v key : String) (hkey : key ≠ k) :
    (m.set k v).get key = m.get key := by
  have hfilter : ∀ l : List (String × String),
      List.lookup key (l.filter (fun e => e.1 != k)) = List.lookup key l := by
    intro l
    induction l with
    | nil => rfl
    | cons e l ih =>
      obtain ⟨a, b⟩ := e
      by_cases ha : a = k
      · subst ha
        have hne : (key == a) = false := by simpa using hkey
        simp [List.filter, List.lookup, hne, ih]
      · have hkeep : (a != k) = true := by simpa using ha
        simp only [List.filter, hkeep, List.lookup]
        cases hka : key == a <;> simp [ih]
  have hne : (key == k) = false := by simpa using hkey
  simp only [ItemMap.get, ItemMap.set, List.lookup, hne]
  exact hfilter m

/-- When the master-IP loop is left by its `break`, some poll within the budget returned
exactly one instance, the polls before it failed or found nothing, the two addresses are
those of that instance, and the only change to the cluster is the INJECTEDMASTER entry. -/
theorem masterIpLoop_broke (p : Provider) (c : Cluster) (n i : Nat) (P Q : String)
    (h : (masterIpLoop p n i c).exit = .broke P Q) :
    ∃ k g, i ≤ k ∧ k < i + n ∧
      (∀ j, i ≤ j → j < k →
        (∃ e, p.ListByTag j (masterTagOf c.ServerPools "") = .error e) ∨
          p.ListByTag j (masterTagOf c.ServerPools "") = .ok []) ∧
      p.ListByTag k (masterTagOf c.ServerPools "") = .ok [g] ∧
      g.PrivateIPv4 = .ok P ∧ g.PublicIPv4 = .ok Q ∧
      (masterIpLoop p n i c).cluster
        = { c with Values := c.Values.set "INJECTEDMASTER" (P ++ ":" ++ c.KubernetesApi.Port) } := by
  induction n generalizing i with
  | zero => simp [masterIpLoop] at h
  | succ n ih =>
    simp only [masterIpLoop] at h ⊢
    by_cases ht : masterTagOf c.ServerPools "" = ""
    · simp [ht] at h
    · simp only [ht, if_false] at h ⊢
      have hnext : ∀ (hready : (∃ e, p.ListByTag i (masterTagOf c.ServerPools "") = .error e) ∨
            p.ListByTag i (masterTagOf c.ServerPools "") = .ok [])
          (hexit : (masterIpLoop p n (i + 1) c).exit = .broke P Q),
          ∃ k g, i ≤ k ∧ k < i + (n + 1) ∧
            (∀ j, i ≤ j → j < k →
              (∃ e, p.ListByTag j (masterTagOf c.ServerPools "") = .error e) ∨
                p.ListByTag j (masterTagOf c.ServerPools "") = .ok []) ∧
            p.ListByTag k (masterTagOf c.ServerPools "") = .ok [g] ∧
            g.PrivateIPv4 = .ok P ∧ g.PublicIPv4 = .ok Q ∧
            (masterIpLoop p n (i + 1) c).cluster
              = { c with
                  Values := c.Values.set "INJECTEDMASTER" (P ++ ":" ++ c.KubernetesApi.Port) } := by
        intro hready hexit
        obtain ⟨k, g, h1, h2, h3, h4⟩ := ih (i + 1) hexit
        refine ⟨k, g, by omega, by omega, ?_, h4⟩
        intro j hj1 hj2
        by_cases hji : j = i
        · subst hji
          exact hready
        · exact h3 j (by omega) hj2
      cases hl : p.ListByTag i (masterTagOf c.ServerPools "") with
      | error e =>
        simp only [hl, LoopOutcome.after] at h ⊢
        exact hnext (Or.inl ⟨e, hl⟩) h
      | ok droplets =>
        rcases droplets with _ | ⟨d, _ | ⟨d₂, more⟩⟩
        · simp only [hl, LoopOutcome.after] at h ⊢
          exact hnext (Or.inr hl) h
        · simp only [hl] at h ⊢
          cases hp : d.PrivateIPv4 with
          | error e => simp [hp] at h
          | ok P₁ =>
            cases hq : d.PublicIPv4 with
            | error e => simp [hp, hq] at h
            | ok Q₁ =>
              simp only [hp, hq, LoopExit.broke.injEq] at h ⊢
              obtain ⟨hP, hQ⟩ := h
              subst hP hQ
              exact ⟨i, d, le_refl i, by omega, fun j hj1 hj2 => by omega, hl, hp, hq, rfl⟩
        · simp [hl] at h

/-- C7: the substitution map after a successful node Apply.  If `Droplet.Apply` for a
node-role pool returns without error and its trace contains a `Create` call, then
discovery found the master: some poll `k < MasterIpAttempts` on the master tag returned
exactly one instance, every earlier poll failed or found nothing, and the instance has a
private address `P`.  In the cluster handed back, with `Q` the cluster's API port and `N`
its name as passed in, the map sends INJECTEDMASTER to `P ++ ":" ++ Q`, INJECTEDNAME to
`N`, INJECTEDPORT to `Q`, and every other key to what it was sent to before. -/
theorem Apply_node_substitution_map (x : Externals) (p : Provider)
    (r actual expected : Droplet) (c : Cluster) (pool : ServerPool) (o : ApplyOutcome)
    (d : Droplet)
    (hpool : r.ServerPool = some pool)
    (hnode : pool.PoolType = ServerPoolType_Node)
    (happly : Apply x p r actual expected c = some o)
    (hok : o.result = .ok d)
    (hcreated : o.trace.countP Event.isCreate ≠ 0) :
    ∃ k g P, k < MasterIpAttempts ∧
      (∀ j, j < k →
        (∃ e, p.ListByTag j (masterTagOf c.ServerPools "") = .error e) ∨
          p.ListByTag j (masterTagOf c.ServerPools "") = .ok []) ∧
      p.ListByTag k (masterTagOf c.ServerPools "") = .ok [g] ∧
      g.PrivateIPv4 = .ok P ∧
      o.cluster.Values.get "INJECTEDMASTER" = some (P ++ ":" ++ c.KubernetesApi.Port) ∧
      o.cluster.Values.get "INJECTEDNAME" = some c.Name ∧
      o.cluster.Values.get "INJECTEDPORT" = some c.KubernetesApi.Port ∧
      ∀ key, key ≠ "INJECTEDMASTER" → key ≠ "INJECTEDNAME" → key ≠ "INJECTEDPORT" →
        o.cluster.Values.get key = c.Values.get key := by
  unfold Apply at happly
  simp only [hpool, hnode, if_true] at happly
  split at happly
  · simp only [Option.some.injEq] at happly
    subst happly
    simp at hok
  · simp only [Option.some.injEq] at happly
    subst happly
    simp at hcreated
  · split at happly
    · simp only [Option.some.injEq] at happly
      subst happly
      simp at hok
    · split at happly
      · simp only [Option.some.injEq] at happly
        subst happly
        simp at hok
      · simp only [Option.some.injEq] at happly
        subst happly
        simp at hok
      · rename_i P Q hexit
        obtain ⟨k, g, _, hk, hwait, hone, hprivate, _, hcluster⟩ :=
          masterIpLoop_broke p c MasterIpAttempts 0 P Q hexit
        have hvalues : ∀ o₁ : ApplyOutcome,
            o₁.cluster.Values
              = (((masterIpLoop p MasterIpAttempts 0 c).cluster.Values.set "INJECTEDNAME"
                  (masterIpLoop p MasterIpAttempts 0 c).cluster.Name).set "INJECTEDPORT"
                  (masterIpLoop p MasterIpAttempts 0 c).cluster.KubernetesApi.Port) →
            ∃ k g P, k < MasterIpAttempts ∧
              (∀ j, j < k →
                (∃ e, p.ListByTag j (masterTagOf c.ServerPools "") = .error e) ∨
                  p.ListByTag j (masterTagOf c.ServerPools "") = .ok []) ∧
              p.ListByTag k (masterTagOf c.ServerPools "") = .ok [g] ∧
              g.PrivateIPv4 = .ok P ∧
              o₁.cluster.Values.get "INJECTEDMASTER" = some (P ++ ":" ++ c.KubernetesApi.Port) ∧
              o₁.cluster.Values.get "INJECTEDNAME" = some c.Name ∧
              o₁.cluster.Values.get "INJECTEDPORT" = some c.KubernetesApi.Port ∧
              ∀ key, key ≠ "INJECTEDMASTER" → key ≠ "INJECTEDNAME" → key ≠ "INJECTEDPORT" →
                o₁.cluster.Values.get key = c.Values.get key := by
          intro o₁ ho₁
          rw [hcluster] at ho₁
          simp only at ho₁
          refine ⟨k, g, P, by omega, fun j hj => hwait j (Nat.zero_le j) hj, hone, hprivate,
            ?_, ?_, ?_, ?_⟩
          · rw [ho₁, ItemMap_get_set_other _ _ _ _ (by decide),
              ItemMap_get_set_other _ _ _ _ (by decide), ItemMap_get_set_same]
          · rw [ho₁, ItemMap_get_set_other _ _ _ _ (by decide), ItemMap_get_set_same]
          · rw [ho₁, ItemMap_get_set_same]
          · intro key h1 h2 h3
            rw [ho₁, ItemMap_get_set_other _ _ _ _ h3, ItemMap_get_set_other _ _ _ _ h2,
              ItemMap_get_set_other _ _ _ _ h1]
        split at happly
        · simp only [Option.some.injEq] at happly
          subst happly
          simp at hok
        · split at happly
          · simp only [Option.some.injEq] at happly
            subst happly
            simp at hok
          · split at happly
            · simp only [Option.some.injEq] at happly
              subst happly
              simp at hok
            · simp only [Option.some.injEq] at happly
              subst happly
              exact hvalues _ rfl

end resources

namespace resources

open cluster

theorem renderLoop_eq (s : Droplet) (pools : List ServerPool) (found : Bool) :
    renderLoop s pools found
      = (pools.map (rendered s), found || pools.any (fun sp => decide (sp.Name = s.Name))) := by
  induction pools generalizing found with
  | nil => simp [renderLoop]
  | cons sp rest ih =>
    by_cases hname : sp.Name = s.Name
    · simp [renderLoop, rendered, hname, ih]
    · simp [renderLoop, rendered, hname, ih]

theorem rendered_name (s : Droplet) (sp : ServerPool) : (rendered s sp).Name = sp.Name := by
  unfold rendered
  split <;> rfl

theorem rendered_rendered (s : Droplet) (sp : ServerPool) :
    rendered s (rendered s sp) = rendered s sp := by
  by_cases hname : sp.Name = s.Name <;> simp [rendered, hname]

theorem map_rendered_rendered (s : Droplet) (pools : List ServerPool) :
    (pools.map (rendered s)).map (rendered s) = pools.map (rendered s) := by
  induction pools with
  | nil => rfl
  | cons sp rest ih => simp only [List.map_cons, rendered_rendered, ih]

theorem any_map_rendered (s : Droplet) (pools : List ServerPool) :
    (pools.map (rendered s)).any (fun sp => decide (sp.Name = s.Name))
      = pools.any (fun sp => decide (sp.Name = s.Name)) := by
  induction pools with
  | nil => rfl
  | cons sp rest ih => simp only [List.map_cons, List.any_cons, rendered_name, ih]

/-- C9: `Droplet.Render` is idempotent.  For a receiver with a server pool, every resource
state `s` and every cluster `c` (with no, one or several pools named `s.Name`), `Render`
returns a cluster `c₁`, and rendering `s` into `c₁` again returns `c₁` itself: the same
list of server pools, field by field, and the same location. -/
theorem Render_idempotent (r s : Droplet) (c : Cluster) (pool : ServerPool)
    (hpool : r.ServerPool = some pool) :
    ∃ c₁, Render r s c = some c₁ ∧ Render r s c₁ = some c₁ := by
  cases hfound : c.ServerPools.any (fun sp => decide (sp.Name = s.Name))
  · refine ⟨{ c with
        ServerPools := c.ServerPools.map (rendered s) ++
          [{ Identifier := "", Name := s.Name, PoolType := pool.PoolType, Image := s.Image,
             Size := s.Size, MaxCount := s.Count, BootstrapScript := "" }],
        Location := s.Region }, ?_, ?_⟩
    · simp only [Render, hpool, renderLoop_eq, hfound, Bool.or_false, Bool.not_false, if_true]
    · have hnew : rendered s
          { Identifier := "", Name := s.Name, PoolType := pool.PoolType, Image := s.Image,
            Size := s.Size, MaxCount := s.Count, BootstrapScript := "" }
          = { Identifier := "", Name := s.Name, PoolType := pool.PoolType, Image := s.Image,
              Size := s.Size, MaxCount := s.Count, BootstrapScript := "" } := by
        simp [rendered]
      simp only [Render, hpool, renderLoop_eq, List.map_append, List.map_cons, List.map_nil,
        map_rendered_rendered, hnew, List.any_append, List.any_cons, decide_True,
        Bool.true_or, Bool.or_true, Bool.not_true, Bool.false_eq_true, if_false]
  · refine ⟨{ c with ServerPools := c.ServerPools.map (rendered s), Location := s.Region },
      ?_, ?_⟩
    · simp only [Render, hpool, renderLoop_eq, hfound, Bool.or_true, Bool.not_true,
        Bool.false_eq_true, if_false]
    · simp only [Render, hpool, renderLoop_eq, map_rendered_rendered, any_map_rendered, hfound,
        Bool.or_true, Bool.not_true, Bool.false_eq_true, if_false]

end resources

namespace resources

open cluster

/-- C9 on a concrete input: a state named like no pool of the sample cluster is appended
once, and rendering it again changes nothing. -/
theorem Render_idempotent_witness :
    nodeResource.ServerPool = some nodePool ∧
    ∃ c₁, Render nodeResource (wantedState "etcd-pool") sampleCluster = some c₁ ∧
      Render nodeResource (wantedState "etcd-pool") c₁ = some c₁ :=
  ⟨rfl, Render_idempotent nodeResource (wantedState "etcd-pool") sampleCluster nodePool rfl⟩

/-- C7 on a concrete input: the master shows up at the third poll with the private
address 10.0.0.5; after the node pool is applied the map sends INJECTEDMASTER to
10.0.0.5:443 and still sends CUSTOM to 42. -/
theorem Apply_node_substitution_map_witness :
    Apply sampleExternals (masterAfter 2) nodeResource (absentState "node-pool")
      (wantedState "node-pool") sampleCluster = some nodeOutcome ∧
    nodeOutcome.cluster.Values.get "INJECTEDMASTER" = some "10.0.0.5:443" ∧
    nodeOutcome.cluster.Values.get "CUSTOM" = sampleCluster.Values.get "CUSTOM" ∧
    ∃ k g P, k < MasterIpAttempts ∧
      (∀ j, j < k →
        (∃ e, (masterAfter 2).ListByTag j (masterTagOf sampleCluster.ServerPools "")
            = .error e) ∨
          (masterAfter 2).ListByTag j (masterTagOf sampleCluster.ServerPools "") = .ok []) ∧
      (masterAfter 2).ListByTag k (masterTagOf sampleCluster.ServerPools "") = .ok [g] ∧
      g.PrivateIPv4 = .ok P ∧
      nodeOutcome.cluster.Values.get "INJECTEDMASTER"
        = some (P ++ ":" ++ sampleCluster.KubernetesApi.Port) ∧
      nodeOutcome.cluster.Values.get "INJECTEDNAME" = some sampleCluster.Name ∧
      nodeOutcome.cluster.Values.get "INJECTEDPORT" = some sampleCluster.KubernetesApi.Port ∧
      ∀ key, key ≠ "INJECTEDMASTER" → key ≠ "INJECTEDNAME" → key ≠ "INJECTEDPORT" →
        nodeOutcome.cluster.Values.get key = sampleCluster.Values.get key :=
  ⟨rfl, by decide, by decide,
    Apply_node_substitution_map sampleExternals (masterAfter 2) nodeResource
      (absentState "node-pool") (wantedState "node-pool") sampleCluster nodePool nodeOutcome
      { Name := "node-pool", CloudID := "102", Region := "sfo2", Size := "1gb",
        Image := "ubuntu-16-04-x64", Count := 1, SShFingerprint := "", ServerPool := none }
      rfl rfl rfl rfl (by decide)⟩

end resources
